import Mathlib

set_option maxRecDepth 20000

/-!
Shallow embedding of the NES emulator 6502 CPU core
(repository `Zobozodiac/nes-emulator`): the status register
(`src/status.rs`), the memory abstraction (`src/memory.rs`), the CPU bus
(`src/bus.rs`), the cartridge and mapper (`src/cartridge/`), the stack
helpers (`src/cpu/stack.rs`) and the interpreter (`src/cpu/mod.rs`).

Rust `u8` / `u16` values are embedded as `Nat`; operations that wrap in
the source (`wrapping_add`, `as u8` casts, shifts) take an explicit
`% 256` / `% 65536`, while the source's plain `+` / `-` on machine
integers (which overflow: a panic under debug assertions) are embedded
as checked operations returning `Except RtErr`.  Fallible Rust code
returning `Result<_, NesError>` is embedded in the same `Except` monad,
with `RtErr.nesError` for `NesError` results and `RtErr.overflow` /
`RtErr.indexOutOfRange` for arithmetic-overflow and slice-index panics.
-/

/-- Failure channel: `nesError` models a returned `Err(NesError)`;
`overflow` models an integer-overflow panic of plain `+` / `-`;
`indexOutOfRange` models an out-of-bounds slice index panic. -/
inductive RtErr where
  | nesError (message : String) : RtErr
  | overflow : RtErr
  | indexOutOfRange : RtErr
deriving Repr, DecidableEq

/-- Rust `a + b` on `u16`: overflow is a panic (debug assertions). -/
def checkedAdd16 (a b : Nat) : Except RtErr Nat :=
  if a + b < 65536 then .ok (a + b) else .error .overflow

/-- Rust `a + b` on `u8`: overflow is a panic (debug assertions). -/
def checkedAdd8 (a b : Nat) : Except RtErr Nat :=
  if a + b < 256 then .ok (a + b) else .error .overflow

/-- Rust `a - b` on `u8`: overflow is a panic (debug assertions). -/
def checkedSub8 (a b : Nat) : Except RtErr Nat :=
  if b ≤ a then .ok (a - b) else .error .overflow

/-- Rust `!v` bitwise complement on `u8`. -/
def notU8 (v : Nat) : Nat := 255 - v % 256

theorem except_bind_ok {α β : Type} (a : α) (f : α → Except RtErr β) :
    (Except.ok a >>= f) = f a := rfl

theorem except_bind_err {α β : Type} (e : RtErr) (f : α → Except RtErr β) :
    ((Except.error e : Except RtErr α) >>= f) = .error e := rfl

theorem except_pure_eq {α : Type} (a : α) :
    (pure a : Except RtErr α) = .ok a := rfl

/-! ## Status register (`src/status.rs`) -/

/-- `enum Flag` (name `Flag` is taken by Mathlib) from `src/status.rs`. -/
inductive CpuFlag where
  | negative | overflow | ignored | break_flag
  | decimal | interrupt | zero | carry
deriving Repr, DecidableEq

/-- `struct Status` from `src/status.rs`: eight independent booleans. -/
structure Status where
  negative : Bool
  overflow : Bool
  ignored : Bool
  break_flag : Bool
  decimal : Bool
  interrupt : Bool
  zero : Bool
  carry : Bool
deriving Repr, DecidableEq

/-- `Status::new`. -/
def Status.new : Status :=
  { negative := false, overflow := false, ignored := true,
    break_flag := false, decimal := false, interrupt := true,
    zero := false, carry := false }

/-- `Status::reset` (assigns the same values as `new`). -/
def Status.reset (_self : Status) : Status := Status.new

/-- `Status::set_flag`. -/
def Status.setFlag (self : Status) (flag : CpuFlag) (value : Bool) : Status :=
  match flag with
  | .negative => { self with negative := value }
  | .overflow => { self with overflow := value }
  | .ignored => { self with ignored := value }
  | .break_flag => { self with break_flag := value }
  | .decimal => { self with decimal := value }
  | .interrupt => { self with interrupt := value }
  | .zero => { self with zero := value }
  | .carry => { self with carry := value }

/-- `Status::read_flag`. -/
def Status.readFlag (self : Status) (flag : CpuFlag) : Bool :=
  match flag with
  | .negative => self.negative
  | .overflow => self.overflow
  | .ignored => self.ignored
  | .break_flag => self.break_flag
  | .decimal => self.decimal
  | .interrupt => self.interrupt
  | .zero => self.zero
  | .carry => self.carry

/-- `Status::set_negative_flag`: `N = (value & 0x80) != 0`. -/
def Status.setNegativeFlag (self : Status) (value : Nat) : Status :=
  self.setFlag .negative (decide ((value &&& 128) ≠ 0))

/-- `Status::set_zero_flag`: `Z = (value == 0)`. -/
def Status.setZeroFlag (self : Status) (value : Nat) : Status :=
  self.setFlag .zero (decide (value = 0))

/-- `Status::set_decrement_flags`: result is `value.wrapping_add(0xFF)`,
Z/N are set from the result, the result is returned. -/
def Status.setDecrementFlags (self : Status) (value : Nat) :
    Status × Nat :=
  let result := (value + 255) % 256
  ((self.setZeroFlag result).setNegativeFlag result, result)

/-- `Status::set_increment_flags`: result is `value.wrapping_add(1)`,
Z/N are set from the result, the result is returned. -/
def Status.setIncrementFlags (self : Status) (value : Nat) :
    Status × Nat :=
  let result := (value + 1) % 256
  ((self.setZeroFlag result).setNegativeFlag result, result)

/-- `Status::get_status_byte`: pack in `NVUBDIZC` order, MSB to LSB. -/
def Status.getStatusByte (self : Status) : Nat :=
  (self.negative.toNat <<< 7) ||| (self.overflow.toNat <<< 6) |||
  (self.ignored.toNat <<< 5) ||| (self.break_flag.toNat <<< 4) |||
  (self.decimal.toNat <<< 3) ||| (self.interrupt.toNat <<< 2) |||
  (self.zero.toNat <<< 1) ||| self.carry.toNat

/-- `Status::set_from_byte`: every flag is assigned from its bit. -/
def Status.setFromByte (_self : Status) (value : Nat) : Status :=
  { negative := decide (0 < (value &&& 128)),
    overflow := decide (0 < (value &&& 64)),
    ignored := decide (0 < (value &&& 32)),
    break_flag := decide (0 < (value &&& 16)),
    decimal := decide (0 < (value &&& 8)),
    interrupt := decide (0 < (value &&& 4)),
    zero := decide (0 < (value &&& 2)),
    carry := decide (0 < (value &&& 1)) }

/-! ## RAM (`src/memory.rs`) -/

/-- `struct RAM`: a `Vec<u8>` storage. -/
structure RAM where
  storage : List Nat
deriving Repr, DecidableEq

/-- `RAM::new(size)`: zero-filled storage of the given size. -/
def RAM.new (size : Nat) : RAM := ⟨List.replicate size 0⟩

/-- `impl Mem for RAM`, `mem_write`: `self.storage[address] = data`
(an out-of-bounds index is a panic). -/
def RAM.memWrite (ram : RAM) (address data : Nat) : Except RtErr RAM :=
  if address < ram.storage.length then .ok ⟨ram.storage.set address data⟩
  else .error .indexOutOfRange

/-- `impl Mem for RAM`, `mem_read`: `self.storage[address]`
(an out-of-bounds index is a panic). -/
def RAM.memRead (ram : RAM) (address : Nat) : Except RtErr Nat :=
  match ram.storage[address]? with
  | some v => .ok v
  | none => .error .indexOutOfRange

/-! ## Cartridge and mapper (`src/cartridge/mod.rs`, `src/cartridge/mapper.rs`) -/

/-- `enum Mapper` from `src/cartridge/mapper.rs`. -/
inductive Mapper where
  | mapper000 (mirror_bank : Bool) : Mapper
deriving Repr, DecidableEq

/-- `Mapper::get_pgr_address`. -/
def Mapper.getPgrAddress (self : Mapper) (address : Nat) : Nat :=
  match self with
  | .mapper000 mirror_bank =>
    if mirror_bank then address &&& 0x3fff else address &&& 0x7fff

/-- `struct Cartridge` from `src/cartridge/mod.rs` (the fields the CPU
bus touches; `mirroring_type` is PPU-side and omitted). -/
structure Cartridge where
  prg_rom : List Nat
  chr_rom : List Nat
  mapper : Mapper
deriving Repr, DecidableEq

/-- `Cartridge::cpu_read`: `self.prg_rom[self.mapper.get_pgr_address(address)]`
(an out-of-bounds index is a panic). -/
def Cartridge.cpuRead (self : Cartridge) (address : Nat) : Except RtErr Nat :=
  match self.prg_rom[self.mapper.getPgrAddress address]? with
  | some v => .ok v
  | none => .error .indexOutOfRange

/-! ## CPU bus (`src/bus.rs`) -/

/-- `struct CpuBus`. -/
structure CpuBus where
  cpu_ram : RAM
  cartridge : Cartridge
deriving Repr, DecidableEq

/-- `CpuBus::new`: 2 KiB of RAM plus the cartridge. -/
def CpuBus.new (cartridge : Cartridge) : CpuBus :=
  { cpu_ram := RAM.new 2048, cartridge := cartridge }

/-- `impl Mem for CpuBus`, `mem_write`: RAM below `0x2000` (mirrored via
`addr & 0x07FF`); the PPU window and the `0x8000..=0xFFFF` cartridge ROM
window return errors; everything else is out of range. -/
def CpuBus.memWrite (bus : CpuBus) (address data : Nat) :
    Except RtErr CpuBus :=
  if address ≤ 0x1fff then
    match bus.cpu_ram.memWrite (address &&& 0x07ff) data with
    | .ok ram => .ok { bus with cpu_ram := ram }
    | .error e => .error e
  else if address ≤ 0x3fff then
    .error (.nesError "PPU not implemented yet.")
  else if 0x8000 ≤ address ∧ address ≤ 0xffff then
    .error (.nesError "Writing to cartridge ROM")
  else
    .error (.nesError ("Writing to address out of range " ++ toString address))

/-- `impl Mem for CpuBus`, `mem_read`: RAM below `0x2000` (mirrored via
`addr & 0x07FF`); the PPU window returns an error; `0x8000..=0xFFFF`
reads from the cartridge; everything else is out of range. -/
def CpuBus.memRead (bus : CpuBus) (address : Nat) : Except RtErr Nat :=
  if address ≤ 0x1fff then
    bus.cpu_ram.memRead (address &&& 0x07ff)
  else if address ≤ 0x3fff then
    .error (.nesError "PPU not implemented yet.")
  else if 0x8000 ≤ address ∧ address ≤ 0xffff then
    bus.cartridge.cpuRead address
  else
    .error (.nesError ("Reading to address out of range " ++ toString address))

/-- Default `Mem::mem_read_u16`: little-endian, the high byte is read at
`address.wrapping_add(1)`. -/
def CpuBus.memReadU16 (bus : CpuBus) (address : Nat) : Except RtErr Nat := do
  let lo ← bus.memRead address
  let hi ← bus.memRead ((address + 1) % 65536)
  pure (lo + 256 * hi)

/-- Default `Mem::mem_read_u16_wrapping_boundary`: the 6502 page-wrap
read: the high byte never carries into the next page. -/
def CpuBus.memReadU16WrappingBoundary (bus : CpuBus) (address : Nat) :
    Except RtErr Nat := do
  let lo ← bus.memRead address
  let hiAddress := (address + 1) % 65536
  if hiAddress &&& 0xff00 = address &&& 0xff00 then
    let hi ← bus.memRead hiAddress
    pure (lo + 256 * hi)
  else
    let hi ← bus.memRead (address &&& 0xff00)
    pure (lo + 256 * hi)

/-! ## Opcode table -/

/-- `enum AddressingMode` from `src/opcodes.rs`. -/
inductive AddressingMode where
  | immediate | zeroPage | zeroPageX | zeroPageY
  | absolute | absoluteX | absoluteY
  | indirect | indirectX | indirectY
  | implied | relative | accumulator
deriving Repr, DecidableEq

/-- Modelled from the spec: `src/cpu/mod.rs` imports an
`enum Instruction` from its opcode module, but that revision of the
opcode module is not under `src/` (only the older `src/opcodes.rs`,
which stores the mnemonic as a string, is).  The variants are the 56
mnemonic groups of spec §4.3, which coincide with the mnemonic strings
of `get_opcode_detail` in `src/opcodes.rs`. -/
inductive Instruction where
  | ADC | AND | ASL | BCC | BCS | BEQ | BIT | BMI | BNE | BPL | BRK
  | BVC | BVS | CLC | CLD | CLI | CLV | CMP | CPX | CPY | DEC | DEX
  | DEY | EOR | INC | INX | INY | JMP | JSR | LDA | LDX | LDY | LSR
  | NOP | ORA | PHA | PHP | PLA | PLP | ROL | ROR | RTI | RTS | SBC
  | SEC | SED | SEI | STA | STX | STY | TAX | TAY | TSX | TXA | TXS
  | TYA
deriving Repr, DecidableEq

/-- Modelled from the spec: the `OpCodeDetail` struct destructured by
`CPU::run_opcode` (`{ instruction, bytes, address_mode, .. }`) lives in
the missing opcode module; per spec §4.3 an entry is
`(mnemonic, mode, length_bytes, base_cycles)`, matching the field list
of the older `src/opcodes.rs` with the mnemonic string replaced by its
`Instruction` variant. -/
structure OpCodeDetail where
  instruction : Instruction
  bytes : Nat
  cycles : Nat
  address_mode : AddressingMode
deriving Repr, DecidableEq

/-- Modelled from the spec: `OpCode::from_code` composed with
`OpCodeDetail::from_opcode` (both in the missing opcode module): a
total lookup covering the 151 official opcodes, where an unknown byte
returns a decoding error (spec §4.3, §7 `UnknownOpcode`).  The entries
are exactly those of `get_opcode_detail` in `src/opcodes.rs`. -/
def decodeOpcode (code : Nat) : Except RtErr OpCodeDetail :=
  match code with
  | 0x00 => .ok ⟨.BRK, 1, 7, .implied⟩
  | 0x01 => .ok ⟨.ORA, 2, 6, .indirectX⟩
  | 0x05 => .ok ⟨.ORA, 2, 3, .zeroPage⟩
  | 0x06 => .ok ⟨.ASL, 2, 5, .zeroPage⟩
  | 0x08 => .ok ⟨.PHP, 1, 3, .implied⟩
  | 0x09 => .ok ⟨.ORA, 2, 2, .immediate⟩
  | 0x0a => .ok ⟨.ASL, 1, 2, .accumulator⟩
  | 0x0d => .ok ⟨.ORA, 3, 4, .absolute⟩
  | 0x0e => .ok ⟨.ASL, 3, 6, .absolute⟩
  | 0x10 => .ok ⟨.BPL, 2, 2, .relative⟩
  | 0x11 => .ok ⟨.ORA, 2, 5, .indirectY⟩
  | 0x15 => .ok ⟨.ORA, 2, 4, .zeroPageX⟩
  | 0x16 => .ok ⟨.ASL, 2, 6, .zeroPageX⟩
  | 0x18 => .ok ⟨.CLC, 1, 2, .implied⟩
  | 0x19 => .ok ⟨.ORA, 3, 4, .absoluteY⟩
  | 0x1d => .ok ⟨.ORA, 3, 4, .absoluteX⟩
  | 0x1e => .ok ⟨.ASL, 3, 7, .absoluteX⟩
  | 0x20 => .ok ⟨.JSR, 3, 6, .absolute⟩
  | 0x21 => .ok ⟨.AND, 2, 6, .indirectX⟩
  | 0x24 => .ok ⟨.BIT, 2, 3, .zeroPage⟩
  | 0x25 => .ok ⟨.AND, 2, 3, .zeroPage⟩
  | 0x26 => .ok ⟨.ROL, 2, 5, .zeroPage⟩
  | 0x28 => .ok ⟨.PLP, 1, 4, .implied⟩
  | 0x29 => .ok ⟨.AND, 2, 2, .immediate⟩
  | 0x2a => .ok ⟨.ROL, 1, 2, .accumulator⟩
  | 0x2c => .ok ⟨.BIT, 3, 4, .absolute⟩
  | 0x2d => .ok ⟨.AND, 3, 4, .absolute⟩
  | 0x2e => .ok ⟨.ROL, 3, 6, .absolute⟩
  | 0x30 => .ok ⟨.BMI, 2, 2, .relative⟩
  | 0x31 => .ok ⟨.AND, 2, 5, .indirectY⟩
  | 0x35 => .ok ⟨.AND, 2, 4, .zeroPageX⟩
  | 0x36 => .ok ⟨.ROL, 2, 6, .zeroPageX⟩
  | 0x38 => .ok ⟨.SEC, 1, 2, .implied⟩
  | 0x39 => .ok ⟨.AND, 3, 4, .absoluteY⟩
  | 0x3d => .ok ⟨.AND, 3, 4, .absoluteX⟩
  | 0x3e => .ok ⟨.ROL, 3, 7, .absoluteX⟩
  | 0x40 => .ok ⟨.RTI, 1, 6, .implied⟩
  | 0x41 => .ok ⟨.EOR, 2, 6, .indirectX⟩
  | 0x45 => .ok ⟨.EOR, 2, 3, .zeroPage⟩
  | 0x46 => .ok ⟨.LSR, 2, 5, .zeroPage⟩
  | 0x48 => .ok ⟨.PHA, 1, 3, .implied⟩
  | 0x49 => .ok ⟨.EOR, 2, 2, .immediate⟩
  | 0x4a => .ok ⟨.LSR, 1, 2, .accumulator⟩
  | 0x4c => .ok ⟨.JMP, 3, 3, .absolute⟩
  | 0x4d => .ok ⟨.EOR, 3, 4, .absolute⟩
  | 0x4e => .ok ⟨.LSR, 3, 6, .absolute⟩
  | 0x50 => .ok ⟨.BVC, 2, 2, .relative⟩
  | 0x51 => .ok ⟨.EOR, 2, 5, .indirectY⟩
  | 0x55 => .ok ⟨.EOR, 2, 4, .zeroPageX⟩
  | 0x56 => .ok ⟨.LSR, 2, 6, .zeroPageX⟩
  | 0x58 => .ok ⟨.CLI, 1, 2, .implied⟩
  | 0x59 => .ok ⟨.EOR, 3, 4, .absoluteY⟩
  | 0x5d => .ok ⟨.EOR, 3, 4, .absoluteX⟩
  | 0x5e => .ok ⟨.LSR, 3, 7, .absoluteX⟩
  | 0x60 => .ok ⟨.RTS, 1, 6, .implied⟩
  | 0x61 => .ok ⟨.ADC, 2, 6, .indirectX⟩
  | 0x65 => .ok ⟨.ADC, 2, 3, .zeroPage⟩
  | 0x66 => .ok ⟨.ROR, 2, 5, .zeroPage⟩
  | 0x68 => .ok ⟨.PLA, 1, 4, .implied⟩
  | 0x69 => .ok ⟨.ADC, 2, 2, .immediate⟩
  | 0x6a => .ok ⟨.ROR, 1, 2, .accumulator⟩
  | 0x6c => .ok ⟨.JMP, 3, 5, .indirect⟩
  | 0x6d => .ok ⟨.ADC, 3, 4, .absolute⟩
  | 0x6e => .ok ⟨.ROR, 3, 6, .absolute⟩
  | 0x70 => .ok ⟨.BVS, 2, 2, .relative⟩
  | 0x71 => .ok ⟨.ADC, 2, 5, .indirectY⟩
  | 0x75 => .ok ⟨.ADC, 2, 4, .zeroPageX⟩
  | 0x76 => .ok ⟨.ROR, 2, 6, .zeroPageX⟩
  | 0x78 => .ok ⟨.SEI, 1, 2, .implied⟩
  | 0x79 => .ok ⟨.ADC, 3, 4, .absoluteY⟩
  | 0x7d => .ok ⟨.ADC, 3, 4, .absoluteX⟩
  | 0x7e => .ok ⟨.ROR, 3, 7, .absoluteX⟩
  | 0x81 => .ok ⟨.STA, 2, 6, .indirectX⟩
  | 0x84 => .ok ⟨.STY, 2, 3, .zeroPage⟩
  | 0x85 => .ok ⟨.STA, 2, 3, .zeroPage⟩
  | 0x86 => .ok ⟨.STX, 2, 3, .zeroPage⟩
  | 0x88 => .ok ⟨.DEY, 1, 2, .implied⟩
  | 0x8a => .ok ⟨.TXA, 1, 2, .implied⟩
  | 0x8c => .ok ⟨.STY, 3, 4, .absolute⟩
  | 0x8d => .ok ⟨.STA, 3, 4, .absolute⟩
  | 0x8e => .ok ⟨.STX, 3, 4, .absolute⟩
  | 0x90 => .ok ⟨.BCC, 2, 2, .relative⟩
  | 0x91 => .ok ⟨.STA, 2, 6, .indirectY⟩
  | 0x94 => .ok ⟨.STY, 2, 4, .zeroPageX⟩
  | 0x95 => .ok ⟨.STA, 2, 4, .zeroPageX⟩
  | 0x96 => .ok ⟨.STX, 2, 4, .zeroPageY⟩
  | 0x98 => .ok ⟨.TYA, 1, 2, .implied⟩
  | 0x99 => .ok ⟨.STA, 3, 5, .absoluteY⟩
  | 0x9a => .ok ⟨.TXS, 1, 2, .implied⟩
  | 0x9d => .ok ⟨.STA, 3, 5, .absoluteX⟩
  | 0xa0 => .ok ⟨.LDY, 2, 2, .immediate⟩
  | 0xa1 => .ok ⟨.LDA, 2, 6, .indirectX⟩
  | 0xa2 => .ok ⟨.LDX, 2, 2, .immediate⟩
  | 0xa4 => .ok ⟨.LDY, 2, 3, .zeroPage⟩
  | 0xa5 => .ok ⟨.LDA, 2, 3, .zeroPage⟩
  | 0xa6 => .ok ⟨.LDX, 2, 3, .zeroPage⟩
  | 0xa8 => .ok ⟨.TAY, 1, 2, .implied⟩
  | 0xa9 => .ok ⟨.LDA, 2, 2, .immediate⟩
  | 0xaa => .ok ⟨.TAX, 1, 2, .implied⟩
  | 0xac => .ok ⟨.LDY, 3, 4, .absolute⟩
  | 0xad => .ok ⟨.LDA, 3, 4, .absolute⟩
  | 0xae => .ok ⟨.LDX, 3, 4, .absolute⟩
  | 0xb0 => .ok ⟨.BCS, 2, 2, .relative⟩
  | 0xb1 => .ok ⟨.LDA, 2, 5, .indirectY⟩
  | 0xb4 => .ok ⟨.LDY, 2, 4, .zeroPageX⟩
  | 0xb5 => .ok ⟨.LDA, 2, 4, .zeroPageX⟩
  | 0xb6 => .ok ⟨.LDX, 2, 4, .zeroPageY⟩
  | 0xb8 => .ok ⟨.CLV, 1, 2, .implied⟩
  | 0xb9 => .ok ⟨.LDA, 3, 4, .absoluteY⟩
  | 0xba => .ok ⟨.TSX, 1, 2, .implied⟩
  | 0xbc => .ok ⟨.LDY, 3, 4, .absoluteX⟩
  | 0xbd => .ok ⟨.LDA, 3, 4, .absoluteX⟩
  | 0xbe => .ok ⟨.LDX, 3, 4, .absoluteY⟩
  | 0xc0 => .ok ⟨.CPY, 2, 2, .immediate⟩
  | 0xc1 => .ok ⟨.CMP, 2, 6, .indirectX⟩
  | 0xc4 => .ok ⟨.CPY, 2, 3, .zeroPage⟩
  | 0xc5 => .ok ⟨.CMP, 2, 3, .zeroPage⟩
  | 0xc6 => .ok ⟨.DEC, 2, 5, .zeroPage⟩
  | 0xc8 => .ok ⟨.INY, 1, 2, .implied⟩
  | 0xc9 => .ok ⟨.CMP, 2, 2, .immediate⟩
  | 0xca => .ok ⟨.DEX, 1, 2, .implied⟩
  | 0xcc => .ok ⟨.CPY, 3, 4, .absolute⟩
  | 0xcd => .ok ⟨.CMP, 3, 4, .absolute⟩
  | 0xce => .ok ⟨.DEC, 3, 6, .absolute⟩
  | 0xd0 => .ok ⟨.BNE, 2, 2, .relative⟩
  | 0xd1 => .ok ⟨.CMP, 2, 5, .indirectY⟩
  | 0xd5 => .ok ⟨.CMP, 2, 4, .zeroPageX⟩
  | 0xd6 => .ok ⟨.DEC, 2, 6, .zeroPageX⟩
  | 0xd8 => .ok ⟨.CLD, 1, 2, .implied⟩
  | 0xd9 => .ok ⟨.CMP, 3, 4, .absoluteY⟩
  | 0xdd => .ok ⟨.CMP, 3, 4, .absoluteX⟩
  | 0xde => .ok ⟨.DEC, 3, 7, .absoluteX⟩
  | 0xe0 => .ok ⟨.CPX, 2, 2, .immediate⟩
  | 0xe1 => .ok ⟨.SBC, 2, 6, .indirectX⟩
  | 0xe4 => .ok ⟨.CPX, 2, 3, .zeroPage⟩
  | 0xe5 => .ok ⟨.SBC, 2, 3, .zeroPage⟩
  | 0xe6 => .ok ⟨.INC, 2, 5, .zeroPage⟩
  | 0xe8 => .ok ⟨.INX, 1, 2, .implied⟩
  | 0xe9 => .ok ⟨.SBC, 2, 2, .immediate⟩
  | 0xea => .ok ⟨.NOP, 1, 2, .implied⟩
  | 0xec => .ok ⟨.CPX, 3, 4, .absolute⟩
  | 0xed => .ok ⟨.SBC, 3, 4, .absolute⟩
  | 0xee => .ok ⟨.INC, 3, 6, .absolute⟩
  | 0xf0 => .ok ⟨.BEQ, 2, 2, .relative⟩
  | 0xf1 => .ok ⟨.SBC, 2, 5, .indirectY⟩
  | 0xf5 => .ok ⟨.SBC, 2, 4, .zeroPageX⟩
  | 0xf6 => .ok ⟨.INC, 2, 6, .zeroPageX⟩
  | 0xf8 => .ok ⟨.SED, 1, 2, .implied⟩
  | 0xf9 => .ok ⟨.SBC, 3, 4, .absoluteY⟩
  | 0xfd => .ok ⟨.SBC, 3, 4, .absoluteX⟩
  | 0xfe => .ok ⟨.INC, 3, 7, .absoluteX⟩
  | _ => .error (.nesError "Unknown opcode")

/-! ## CPU (`src/cpu/mod.rs`, `src/cpu/stack.rs`) -/

/-- `struct CPU`. -/
structure CPU where
  register_a : Nat
  register_x : Nat
  register_y : Nat
  status : Status
  program_counter : Nat
  stack_pointer : Nat
  bus : CpuBus
deriving Repr, DecidableEq

/-- `CPU::new`. -/
def CPU.new (bus : CpuBus) : CPU :=
  { register_a := 0, register_x := 0, register_y := 0,
    status := Status.new, program_counter := 0, stack_pointer := 0xfd,
    bus := bus }

/-- `CPU::get_stack_address` (`src/cpu/stack.rs`):
`u16::from_le_bytes([stack_pointer, 0x01])`. -/
def CPU.getStackAddress (cpu : CPU) : Nat :=
  cpu.stack_pointer + 256 * 0x01

/-- `CPU::push_to_stack`: write at the stack address, then
`stack_pointer = stack_pointer - 1` (plain `u8` subtraction). -/
def CPU.pushToStack (cpu : CPU) (data : Nat) : Except RtErr CPU := do
  let stackAddress := cpu.getStackAddress
  let bus ← cpu.bus.memWrite stackAddress data
  let sp ← checkedSub8 cpu.stack_pointer 1
  pure { cpu with bus := bus, stack_pointer := sp }

/-- `CPU::push_to_stack_u16`: push the high byte, then the low byte. -/
def CPU.pushToStackU16 (cpu : CPU) (data : Nat) : Except RtErr CPU := do
  let lo := data % 256
  let hi := data / 256 % 256
  let cpu ← cpu.pushToStack hi
  cpu.pushToStack lo

/-- `CPU::pull_from_stack`: `stack_pointer = stack_pointer + 1` (plain
`u8` addition), then read at the stack address. -/
def CPU.pullFromStack (cpu : CPU) : Except RtErr (Nat × CPU) := do
  let sp ← checkedAdd8 cpu.stack_pointer 1
  let cpu := { cpu with stack_pointer := sp }
  let stackAddress := cpu.getStackAddress
  let v ← cpu.bus.memRead stackAddress
  pure (v, cpu)

/-- `CPU::pull_from_stack_u16`: pull the low byte, then the high byte. -/
def CPU.pullFromStackU16 (cpu : CPU) : Except RtErr (Nat × CPU) := do
  let (lo, cpu) ← cpu.pullFromStack
  let (hi, cpu) ← cpu.pullFromStack
  pure (lo + 256 * hi, cpu)

/-- `CPU::get_operand_address`: note the `program_counter + 1` at the
top is a plain `u16` addition. -/
def CPU.getOperandAddress (cpu : CPU) (mode : AddressingMode) :
    Except RtErr Nat := do
  let program_counter ← checkedAdd16 cpu.program_counter 1
  match mode with
  | .immediate => pure program_counter
  | .zeroPage => cpu.bus.memRead program_counter
  | .zeroPageX => do
      let m ← cpu.bus.memRead program_counter
      pure ((m + cpu.register_x) % 256)
  | .zeroPageY => do
      let m ← cpu.bus.memRead program_counter
      pure ((m + cpu.register_y) % 256)
  | .absolute => cpu.bus.memReadU16 program_counter
  | .absoluteX => do
      let a ← cpu.bus.memReadU16 program_counter
      pure ((a + cpu.register_x) % 65536)
  | .absoluteY => do
      let a ← cpu.bus.memReadU16 program_counter
      pure ((a + cpu.register_y) % 65536)
  | .indirect => do
      let address ← cpu.bus.memReadU16 program_counter
      cpu.bus.memReadU16WrappingBoundary address
  | .indirectX => do
      let m ← cpu.bus.memRead program_counter
      cpu.bus.memReadU16WrappingBoundary ((m + cpu.register_x) % 256)
  | .indirectY => do
      let base ← cpu.bus.memRead program_counter
      let address ← cpu.bus.memReadU16WrappingBoundary base
      pure ((address + cpu.register_y) % 65536)
  | .relative => pure program_counter
  | _ => .error (.nesError "mode does not support getting an address")

/-- `CPU::get_operand_address_value`. -/
def CPU.getOperandAddressValue (cpu : CPU) (mode : AddressingMode) :
    Except RtErr Nat :=
  match mode with
  | .accumulator => pure cpu.register_a
  | .implied => .error (.nesError "mode Implied does not have a value")
  | _ => do
      let address ← cpu.getOperandAddress mode
      cpu.bus.memRead address

/-- `CPU::apply_bytes_to_program_counter`:
`program_counter.wrapping_add(bytes)`. -/
def CPU.applyBytesToProgramCounter (cpu : CPU) (bytes : Nat) : CPU :=
  { cpu with program_counter := (cpu.program_counter + bytes) % 65536 }

/-- `CPU::move_pointer_on_branch`: the operand byte is reinterpreted as
`i8`, sign-extended to `u16` (`value as i8 as u16`), and added with
16-bit wrap to the PC advanced past the instruction. -/
def CPU.movePointerOnBranch (cpu : CPU) (mode : AddressingMode)
    (bytes : Nat) : Except RtErr CPU := do
  let value ← cpu.getOperandAddressValue mode
  let unsignedU16 :=
    if value % 256 < 128 then value % 256 else 0xff00 + value % 256
  let cpu := cpu.applyBytesToProgramCounter bytes
  let result := (cpu.program_counter + unsignedU16) % 65536
  pure { cpu with program_counter := result }

/-- `CPU::addition_with_register_a`: `result = A + value + C` in `u16`
(plain additions), `A` and `Z`/`N` from the low byte, `C` from the high
byte, `V = ((A ^ lo) & ((value as u8) ^ lo) & 0x80) > 0`. -/
def CPU.additionWithRegisterA (cpu : CPU) (value : Nat) :
    Except RtErr CPU := do
  let initialCarry := (cpu.status.readFlag .carry).toNat
  let partial_sum ← checkedAdd16 cpu.register_a value
  let result ← checkedAdd16 partial_sum initialCarry
  let lo := result % 256
  let hi := result / 256
  let overflow :=
    decide (0 < (cpu.register_a ^^^ lo) &&& ((value % 256) ^^^ lo) &&& 128)
  let status :=
    (((cpu.status.setZeroFlag lo).setNegativeFlag lo).setFlag
      .carry (decide (0 < hi))).setFlag .overflow overflow
  pure { cpu with register_a := lo, status := status }

/-- `CPU::compare_to_memory`: `reg + (!M as u16 + 1)` with 16-bit
wrapping; `Z`/`N` from the low byte, `C` from the high byte. -/
def CPU.compareToMemory (cpu : CPU) (value : Nat) (mode : AddressingMode) :
    Except RtErr CPU := do
  let memoryValue ← cpu.getOperandAddressValue mode
  let inverseMemoryValue := (notU8 memoryValue + 1) % 65536
  let result := (inverseMemoryValue + value) % 65536
  let lo := result % 256
  let hi := result / 256
  let status :=
    ((cpu.status.setZeroFlag lo).setNegativeFlag lo).setFlag
      .carry (decide (0 < hi))
  pure { cpu with status := status }

/-- `CPU::plp`: pull a byte into `P`, preserving the pre-pull `B` and
`U` bits. -/
def CPU.plp (cpu : CPU) : Except RtErr CPU := do
  let breakFlag := cpu.status.readFlag .break_flag
  let ignoredFlag := cpu.status.readFlag .ignored
  let (result, cpu) ← cpu.pullFromStack
  let status :=
    ((cpu.status.setFromByte result).setFlag .break_flag breakFlag).setFlag
      .ignored ignoredFlag
  pure { cpu with status := status }

/-- `CPU::jmp`: assign the operand address to the PC. -/
def CPU.jmp (cpu : CPU) (mode : AddressingMode) : Except RtErr CPU := do
  let address ← cpu.getOperandAddress mode
  pure { cpu with program_counter := address }

/-- The `Instruction::ADC` arm of `run_opcode` after the operand fetch:
`addition_with_register_a(value as u16)`, then the PC advance. -/
def CPU.adcWithOperand (cpu : CPU) (value bytes : Nat) :
    Except RtErr CPU := do
  let cpu ← cpu.additionWithRegisterA value
  pure (cpu.applyBytesToProgramCounter bytes)

/-- The `Instruction::SBC` arm of `run_opcode` after the operand fetch:
`value = !value`, then the same `addition_with_register_a` call and PC
advance as the ADC arm. -/
def CPU.sbcWithOperand (cpu : CPU) (value bytes : Nat) :
    Except RtErr CPU :=
  cpu.adcWithOperand (notU8 value) bytes

/-- `CPU::run_opcode`: one arm per mnemonic, in source order. -/
def CPU.runOpcode (cpu : CPU) (opcode : OpCodeDetail) : Except RtErr CPU :=
  let bytes := opcode.bytes
  let mode := opcode.address_mode
  match opcode.instruction with
  | .ADC => do
      let value ← cpu.getOperandAddressValue mode
      cpu.adcWithOperand value bytes
  | .AND => do
      let value ← cpu.getOperandAddressValue mode
      let result := cpu.register_a &&& value
      let status := (cpu.status.setZeroFlag result).setNegativeFlag result
      pure (({ cpu with register_a := result, status := status }).applyBytesToProgramCounter bytes)
  | .ASL => do
      let value ← cpu.getOperandAddressValue mode
      let result := (value <<< 1) % 65536
      let lo := result % 256
      let hi := result / 256
      let cpu ←
        match mode with
        | .accumulator => pure { cpu with register_a := lo }
        | _ => do
            let address ← cpu.getOperandAddress mode
            let bus ← cpu.bus.memWrite address lo
            pure { cpu with bus := bus }
      let status := ((cpu.status.setZeroFlag lo).setNegativeFlag lo).setFlag
        .carry (decide (0 < hi))
      pure (({ cpu with status := status }).applyBytesToProgramCounter bytes)
  | .BCC =>
      if cpu.status.readFlag .carry then
        pure (cpu.applyBytesToProgramCounter bytes)
      else cpu.movePointerOnBranch mode bytes
  | .BCS =>
      if !(cpu.status.readFlag .carry) then
        pure (cpu.applyBytesToProgramCounter bytes)
      else cpu.movePointerOnBranch mode bytes
  | .BEQ =>
      if !(cpu.status.readFlag .zero) then
        pure (cpu.applyBytesToProgramCounter bytes)
      else cpu.movePointerOnBranch mode bytes
  | .BIT => do
      let value ← cpu.getOperandAddressValue mode
      let andResult := cpu.register_a &&& value
      let status := ((cpu.status.setFlag .negative
        (decide (0 < (value &&& 128)))).setFlag .overflow
        (decide (0 < (value &&& 64)))).setFlag .zero
        (decide (andResult = 0))
      pure (({ cpu with status := status }).applyBytesToProgramCounter bytes)
  | .BMI =>
      if !(cpu.status.readFlag .negative) then
        pure (cpu.applyBytesToProgramCounter bytes)
      else cpu.movePointerOnBranch mode bytes
  | .BNE =>
      if cpu.status.readFlag .zero then
        pure (cpu.applyBytesToProgramCounter bytes)
      else cpu.movePointerOnBranch mode bytes
  | .BPL =>
      if cpu.status.readFlag .negative then
        pure (cpu.applyBytesToProgramCounter bytes)
      else cpu.movePointerOnBranch mode bytes
  | .BRK => do
      let pc2 ← checkedAdd16 cpu.program_counter 2
      let cpu ← cpu.pushToStackU16 pc2
      let breakFlag := cpu.status.readFlag .break_flag
      let cpu := { cpu with status := cpu.status.setFlag .break_flag true }
      let cpu ← cpu.pushToStack cpu.status.getStatusByte
      let cpu := { cpu with status := cpu.status.setFlag .break_flag breakFlag }
      let pc ← cpu.bus.memReadU16 0xfffe
      pure { cpu with program_counter := pc }
  | .BVC =>
      if cpu.status.readFlag .overflow then
        pure (cpu.applyBytesToProgramCounter bytes)
      else cpu.movePointerOnBranch mode bytes
  | .BVS =>
      if !(cpu.status.readFlag .overflow) then
        pure (cpu.applyBytesToProgramCounter bytes)
      else cpu.movePointerOnBranch mode bytes
  | .CLC =>
      pure (({ cpu with status := cpu.status.setFlag .carry false }).applyBytesToProgramCounter bytes)
  | .CLD =>
      pure (({ cpu with status := cpu.status.setFlag .decimal false }).applyBytesToProgramCounter bytes)
  | .CLI =>
      pure (({ cpu with status := cpu.status.setFlag .interrupt false }).applyBytesToProgramCounter bytes)
  | .CLV =>
      pure (({ cpu with status := cpu.status.setFlag .overflow false }).applyBytesToProgramCounter bytes)
  | .CMP => do
      let cpu ← cpu.compareToMemory cpu.register_a mode
      pure (cpu.applyBytesToProgramCounter bytes)
  | .CPX => do
      let cpu ← cpu.compareToMemory cpu.register_x mode
      pure (cpu.applyBytesToProgramCounter bytes)
  | .CPY => do
      let cpu ← cpu.compareToMemory cpu.register_y mode
      pure (cpu.applyBytesToProgramCounter bytes)
  | .DEC => do
      let value ← cpu.getOperandAddressValue mode
      let (status, result) := cpu.status.setDecrementFlags value
      let cpu := { cpu with status := status }
      let address ← cpu.getOperandAddress mode
      let bus ← cpu.bus.memWrite address result
      pure (({ cpu with bus := bus }).applyBytesToProgramCounter bytes)
  | .DEX =>
      let (status, result) := cpu.status.setDecrementFlags cpu.register_x
      pure (({ cpu with register_x := result, status := status }).applyBytesToProgramCounter bytes)
  | .DEY =>
      let (status, result) := cpu.status.setDecrementFlags cpu.register_y
      pure (({ cpu with register_y := result, status := status }).applyBytesToProgramCounter bytes)
  | .EOR => do
      let value ← cpu.getOperandAddressValue mode
      let result := cpu.register_a ^^^ value
      let status := (cpu.status.setZeroFlag result).setNegativeFlag result
      pure (({ cpu with register_a := result, status := status }).applyBytesToProgramCounter bytes)
  | .INC => do
      let value ← cpu.getOperandAddressValue mode
      let (status, result) := cpu.status.setIncrementFlags value
      let cpu := { cpu with status := status }
      let address ← cpu.getOperandAddress mode
      let bus ← cpu.bus.memWrite address result
      pure (({ cpu with bus := bus }).applyBytesToProgramCounter bytes)
  | .INX =>
      let (status, result) := cpu.status.setIncrementFlags cpu.register_x
      pure (({ cpu with register_x := result, status := status }).applyBytesToProgramCounter bytes)
  | .INY =>
      let (status, result) := cpu.status.setIncrementFlags cpu.register_y
      pure (({ cpu with register_y := result, status := status }).applyBytesToProgramCounter bytes)
  | .JMP => cpu.jmp mode
  | .JSR => do
      let cpu ← cpu.pushToStackU16 ((cpu.program_counter + 2) % 65536)
      cpu.jmp mode
  | .LDA => do
      let value ← cpu.getOperandAddressValue mode
      let status := (cpu.status.setZeroFlag value).setNegativeFlag value
      pure (({ cpu with register_a := value, status := status }).applyBytesToProgramCounter bytes)
  | .LDX => do
      let value ← cpu.getOperandAddressValue mode
      let status := (cpu.status.setZeroFlag value).setNegativeFlag value
      pure (({ cpu with register_x := value, status := status }).applyBytesToProgramCounter bytes)
  | .LDY => do
      let value ← cpu.getOperandAddressValue mode
      let status := (cpu.status.setZeroFlag value).setNegativeFlag value
      pure (({ cpu with register_y := value, status := status }).applyBytesToProgramCounter bytes)
  | .LSR => do
      let value ← cpu.getOperandAddressValue mode
      let carryFlag := value &&& 1
      let result := value >>> 1
      let cpu ←
        match mode with
        | .accumulator => pure { cpu with register_a := result }
        | _ => do
            let address ← cpu.getOperandAddress mode
            let bus ← cpu.bus.memWrite address result
            pure { cpu with bus := bus }
      let status := ((cpu.status.setFlag .negative false).setZeroFlag
        result).setFlag .carry (decide (0 < carryFlag))
      pure (({ cpu with status := status }).applyBytesToProgramCounter bytes)
  | .NOP => pure (cpu.applyBytesToProgramCounter bytes)
  | .ORA => do
      let value ← cpu.getOperandAddressValue mode
      let result := cpu.register_a ||| value
      let status := (cpu.status.setZeroFlag result).setNegativeFlag result
      pure (({ cpu with register_a := result, status := status }).applyBytesToProgramCounter bytes)
  | .PHA => do
      let cpu ← cpu.pushToStack cpu.register_a
      pure (cpu.applyBytesToProgramCounter bytes)
  | .PHP => do
      let breakFlag := cpu.status.readFlag .break_flag
      let ignoredFlag := cpu.status.readFlag .ignored
      let cpu := { cpu with status := (cpu.status.setFlag .break_flag true).setFlag .ignored true }
      let cpu ← cpu.pushToStack cpu.status.getStatusByte
      let cpu := { cpu with status := (cpu.status.setFlag .break_flag breakFlag).setFlag .ignored ignoredFlag }
      pure (cpu.applyBytesToProgramCounter bytes)
  | .PLA => do
      let (result, cpu) ← cpu.pullFromStack
      let status := (cpu.status.setZeroFlag result).setNegativeFlag result
      pure (({ cpu with register_a := result, status := status }).applyBytesToProgramCounter bytes)
  | .PLP => do
      let cpu ← cpu.plp
      pure (cpu.applyBytesToProgramCounter bytes)
  | .ROL => do
      let value ← cpu.getOperandAddressValue mode
      let carryFlag := value &&& 128
      let result := ((value <<< 1) % 256) |||
        (cpu.status.readFlag .carry).toNat
      let cpu ←
        match mode with
        | .accumulator => pure { cpu with register_a := result }
        | _ => do
            let address ← cpu.getOperandAddress mode
            let bus ← cpu.bus.memWrite address result
            pure { cpu with bus := bus }
      let status := ((cpu.status.setZeroFlag result).setNegativeFlag
        result).setFlag .carry (decide (0 < carryFlag))
      pure (({ cpu with status := status }).applyBytesToProgramCounter bytes)
  | .ROR => do
      let value ← cpu.getOperandAddressValue mode
      let carryFlag := value &&& 1
      let result := (value >>> 1) |||
        ((cpu.status.readFlag .carry).toNat <<< 7)
      let cpu ←
        match mode with
        | .accumulator => pure { cpu with register_a := result }
        | _ => do
            let address ← cpu.getOperandAddress mode
            let bus ← cpu.bus.memWrite address result
            pure { cpu with bus := bus }
      let status := ((cpu.status.setZeroFlag result).setNegativeFlag
        result).setFlag .carry (decide (0 < carryFlag))
      pure (({ cpu with status := status }).applyBytesToProgramCounter bytes)
  | .RTI => do
      let cpu ← cpu.plp
      let (pc, cpu) ← cpu.pullFromStackU16
      pure { cpu with program_counter := pc }
  | .RTS => do
      let (pc, cpu) ← cpu.pullFromStackU16
      let pc1 ← checkedAdd16 pc 1
      pure { cpu with program_counter := pc1 }
  | .SBC => do
      let value ← cpu.getOperandAddressValue mode
      cpu.sbcWithOperand value bytes
  | .SEC =>
      pure (({ cpu with status := cpu.status.setFlag .carry true }).applyBytesToProgramCounter bytes)
  | .SED =>
      pure (({ cpu with status := cpu.status.setFlag .decimal true }).applyBytesToProgramCounter bytes)
  | .SEI =>
      pure (({ cpu with status := cpu.status.setFlag .interrupt true }).applyBytesToProgramCounter bytes)
  | .STA => do
      let address ← cpu.getOperandAddress mode
      let bus ← cpu.bus.memWrite address cpu.register_a
      pure (({ cpu with bus := bus }).applyBytesToProgramCounter bytes)
  | .STX => do
      let address ← cpu.getOperandAddress mode
      let bus ← cpu.bus.memWrite address cpu.register_x
      pure (({ cpu with bus := bus }).applyBytesToProgramCounter bytes)
  | .STY => do
      let address ← cpu.getOperandAddress mode
      let bus ← cpu.bus.memWrite address cpu.register_y
      pure (({ cpu with bus := bus }).applyBytesToProgramCounter bytes)
  | .TAX =>
      let result := cpu.register_a
      let status := (cpu.status.setZeroFlag result).setNegativeFlag result
      pure (({ cpu with register_x := result, status := status }).applyBytesToProgramCounter bytes)
  | .TAY =>
      let result := cpu.register_a
      let status := (cpu.status.setZeroFlag result).setNegativeFlag result
      pure (({ cpu with register_y := result, status := status }).applyBytesToProgramCounter bytes)
  | .TSX =>
      let result := cpu.stack_pointer
      let status := (cpu.status.setZeroFlag result).setNegativeFlag result
      pure (({ cpu with register_x := result, status := status }).applyBytesToProgramCounter bytes)
  | .TXA =>
      let result := cpu.register_x
      let status := (cpu.status.setZeroFlag result).setNegativeFlag result
      pure (({ cpu with register_a := result, status := status }).applyBytesToProgramCounter bytes)
  | .TXS =>
      pure (({ cpu with stack_pointer := cpu.register_x }).applyBytesToProgramCounter bytes)
  | .TYA =>
      let result := cpu.register_y
      let status := (cpu.status.setZeroFlag result).setNegativeFlag result
      pure (({ cpu with register_a := result, status := status }).applyBytesToProgramCounter bytes)

/-- `CPU::run_with_callback`, made total with a `fuel` bound on loop
iterations and instrumented with a counter `n` of callback invocations:
fetch the opcode byte, decode it (`?` propagates a decode error), stop
with `Ok` when the decoded instruction is `BRK`, otherwise invoke the
callback, execute the instruction and loop.  When the fuel runs out the
still-running machine is returned as-is; no theorem relies on that
case. -/
def CPU.runWithCallbackCnt (callback : CPU → CPU) :
    Nat → CPU → Nat → Except RtErr CPU × Nat
  | 0, cpu, n => (.ok cpu, n)
  | fuel + 1, cpu, n =>
    match cpu.bus.memRead cpu.program_counter with
    | .error e => (.error e, n)
    | .ok code =>
      match decodeOpcode code with
      | .error e => (.error e, n)
      | .ok opcode =>
        if opcode.instruction = .BRK then (.ok cpu, n)
        else
          match (callback cpu).runOpcode opcode with
          | .error e => (.error e, n + 1)
          | .ok cpu2 => CPU.runWithCallbackCnt callback fuel cpu2 (n + 1)


/-! ## Concrete machine states used by the theorems

The concrete states below are values of the embedded state types.  Where
the RAM contents are irrelevant to the property being exhibited, a
512-byte RAM list is used instead of the constructor's 2 KiB one so that
kernel evaluation stays shallow; the functions under test are the
unchanged embeddings above, and none of the addresses they touch in
these theorems lies beyond 0x1FF in the mirrored RAM index space. -/

/-- A cartridge with empty ROM (enough for theorems that never read it). -/
def sampleCartridge : Cartridge :=
  { prg_rom := [], chr_rom := [], mapper := .mapper000 false }

/-- A freshly constructed bus: 2 KiB of zeroed RAM plus `sampleCartridge`. -/
def sampleBus : CpuBus := CpuBus.new sampleCartridge

/-- A bus with 512 bytes of zeroed RAM (covers the stack page). -/
def smallBus : CpuBus := ⟨⟨List.replicate 0x200 0⟩, sampleCartridge⟩

/-- Machine with the accumulator holding `0x8A` (scenario S3). -/
def cpuS3 : CPU := { CPU.new smallBus with register_a := 0x8a }

/-- Machine with `SP = 0x00` (reachable, e.g. via `TXS` with `X = 0`). -/
def cpuSP0 : CPU := { CPU.new smallBus with stack_pointer := 0x00 }

/-- Machine with `SP = 0xFF`. -/
def cpuSPFF : CPU := { CPU.new smallBus with stack_pointer := 0xff }

/-- Machine with the post-reset `SP = 0xFD`. -/
def cpuSPFD : CPU := CPU.new smallBus

/-- Machine with `PC = 0xFFFF`. -/
def cpuFF : CPU := { CPU.new smallBus with program_counter := 0xffff }

/-- Machine with `PC = 0xFFFE`. -/
def cpuFE : CPU := { CPU.new smallBus with program_counter := 0xfffe }

/-- Machine whose next fetch yields `0x00` (`BRK`): zeroed RAM, `PC = 0`. -/
def cpuBrkFetch : CPU := CPU.new smallBus

/-- RAM whose byte at `0x0000` is `0x02`, a byte no official opcode uses. -/
def badRam : RAM := ⟨0x02 :: List.replicate 0x1ff 0⟩

/-- Machine whose next fetch yields the undecodable byte `0x02`. -/
def cpuBadOp : CPU := CPU.new ⟨badRam, sampleCartridge⟩

/-- A 16 KiB mirrored-bank cartridge whose IRQ/BRK vector bytes
(`0xFFFE/F`, mapped to ROM offsets `0x3FFE/F`) hold `0x34`, `0x12`. -/
def brkCartridge : Cartridge :=
  { prg_rom := List.replicate 16382 0 ++ [0x34, 0x12], chr_rom := [],
    mapper := .mapper000 true }

/-- Machine about to execute `BRK` at `PC = 0x0034` with `I = 0`
(reachable: reset then `CLI`). -/
def cpuBrk3 : CPU where
  register_a := 0
  register_x := 0
  register_y := 0
  status := ⟨false, false, true, false, false, false, false, false⟩
  program_counter := 0x0034
  stack_pointer := 0xfd
  bus := ⟨⟨List.replicate 0x200 0⟩, brkCartridge⟩

/-- The RAM of `cpuBrk3` after BRK's three stack pushes: `0x00` (high
byte of `PC + 2`) at `0x01FD`, `0x36` (low byte) at `0x01FC`, and the
status byte `0x30` at `0x01FB`. -/
def ramBrkPushed : RAM :=
  ⟨(((List.replicate 0x200 0).set 0x1fd 0x00).set 0x1fc 0x36).set
    0x1fb 0x30⟩

/-- `cpuBrk3` right after BRK's three pushes, before the vector fetch. -/
def cpuBrkPushed : CPU where
  register_a := 0
  register_x := 0
  register_y := 0
  status := ⟨false, false, true, false, false, false, false, false⟩
  program_counter := 0x0034
  stack_pointer := 0xfa
  bus := ⟨ramBrkPushed, brkCartridge⟩

/-! ## BRK execution at `cpuBrk3`, step by step -/

/-- RAM of `cpuBrk3` after the first two pushes (`PC + 2` high, low). -/
def ramB2 : RAM := ⟨((List.replicate 0x200 0).set 0x1fd 0x00).set 0x1fc 0x36⟩

/-- `cpuBrk3` after `push_to_stack_u16(PC + 2)`. -/
def cpuB2 : CPU where
  register_a := 0
  register_x := 0
  register_y := 0
  status := ⟨false, false, true, false, false, false, false, false⟩
  program_counter := 0x0034
  stack_pointer := 0xfb
  bus := ⟨ramB2, brkCartridge⟩

/-- `cpuB2` after the status-byte push, `B` still forced to 1. -/
def cpuB3 : CPU where
  register_a := 0
  register_x := 0
  register_y := 0
  status := ⟨false, false, true, true, false, false, false, false⟩
  program_counter := 0x0034
  stack_pointer := 0xfa
  bus := ⟨ramBrkPushed, brkCartridge⟩

theorem brkStepAdd : checkedAdd16 cpuBrk3.program_counter 2 = .ok 0x36 := rfl

theorem brkStepPushPc : cpuBrk3.pushToStackU16 0x36 = .ok cpuB2 := rfl

theorem brkStepPushStatus :
    CPU.pushToStack
      { register_a := cpuB2.register_a, register_x := cpuB2.register_x,
        register_y := cpuB2.register_y,
        status := cpuB2.status.setFlag CpuFlag.break_flag true,
        program_counter := cpuB2.program_counter,
        stack_pointer := cpuB2.stack_pointer, bus := cpuB2.bus }
      (cpuB2.status.setFlag CpuFlag.break_flag true).getStatusByte =
    .ok cpuB3 := rfl

theorem land_fffe_3fff : (0xfffe &&& 0x3fff : Nat) = 0x3ffe := by decide

theorem land_ffff_3fff : (0xffff &&& 0x3fff : Nat) = 0x3fff := by decide

theorem brkCartridge_read_lo : brkCartridge.cpuRead 0xfffe = .ok 0x34 := by
  simp +decide only [brkCartridge, Cartridge.cpuRead, Mapper.getPgrAddress,
    reduceIte, land_fffe_3fff, List.getElem?_append_right,
    List.length_replicate, Nat.reduceSub, List.getElem?_cons_zero,
    List.getElem?_cons_succ]

theorem brkCartridge_read_hi : brkCartridge.cpuRead 0xffff = .ok 0x12 := by
  simp +decide only [brkCartridge, Cartridge.cpuRead, Mapper.getPgrAddress,
    reduceIte, land_ffff_3fff, List.getElem?_append_right,
    List.length_replicate, Nat.reduceSub, List.getElem?_cons_zero,
    List.getElem?_cons_succ]

theorem brkBusCartProj : cpuB3.bus.cartridge = brkCartridge := rfl

theorem brkVecReadLo : cpuB3.bus.memRead 0xfffe = brkCartridge.cpuRead 0xfffe := by
  simp +decide only [CpuBus.memRead, reduceIte, brkBusCartProj]

theorem brkVecReadHi : cpuB3.bus.memRead ((0xfffe + 1) % 65536) =
    brkCartridge.cpuRead 0xffff := by
  simp +decide only [CpuBus.memRead, reduceIte, brkBusCartProj, Nat.reduceAdd,
    Nat.reduceMod]

theorem brkVec : cpuB3.bus.memReadU16 0xfffe = .ok 0x1234 := by
  unfold CpuBus.memReadU16
  rw [brkVecReadLo, brkCartridge_read_lo]
  simp only [except_bind_ok]
  rw [brkVecReadHi, brkCartridge_read_hi]
  simp only [except_bind_ok, except_pure_eq]

theorem brk_exec : cpuBrk3.runOpcode ⟨.BRK, 1, 7, .implied⟩ =
    .ok { cpuBrkPushed with program_counter := 0x1234 } := by
  simp only [CPU.runOpcode, brkStepAdd, except_bind_ok, brkStepPushPc]
  rw [brkStepPushStatus]
  simp only [except_bind_ok]
  rw [brkVec]
  simp only [except_bind_ok, except_pure_eq]
  have hra : cpuB3.register_a = cpuBrkPushed.register_a := rfl
  have hrx : cpuB3.register_x = cpuBrkPushed.register_x := rfl
  have hry : cpuB3.register_y = cpuBrkPushed.register_y := rfl
  have hsp : cpuB3.stack_pointer = cpuBrkPushed.stack_pointer := rfl
  have hbus : cpuB3.bus = cpuBrkPushed.bus := rfl
  have hstat : cpuB3.status.setFlag CpuFlag.break_flag
      (cpuB2.status.readFlag CpuFlag.break_flag) = cpuBrkPushed.status := rfl
  rw [hra, hrx, hry, hsp, hbus, hstat]

/-! ## Claims -/

/-- Claim C3 (code bug): executing `BRK` from a reachable state with
`I = 0` (`cpuBrk3`: reset, then `CLI`, `PC = 0x0034`) pushes `PC + 2`
high-then-low (`0x00` at `0x01FD`, `0x36` at `0x01FC`), pushes the
status byte `0x30` at `0x01FB` — `B = 1` and `U = 1` in the pushed
copy — loads `PC` from the little-endian vector at `0xFFFE`
(`0x1234`), and leaves the on-CPU `B` clear; but the interrupt-disable
flag is still `0` afterwards, although the claim (and the 6502)
requires `I = 1` after BRK. -/
theorem brk_leaves_interrupt_flag_clear :
    (cpuBrk3.runOpcode ⟨.BRK, 1, 7, .implied⟩).bind
      (fun c => (c.bus.memRead 0x01fd).bind (fun hi =>
        (c.bus.memRead 0x01fc).bind (fun lo =>
          (c.bus.memRead 0x01fb).map (fun st =>
            (c.status.interrupt, c.status.break_flag, c.status.ignored,
             c.program_counter, c.stack_pointer, hi, lo, st))))) =
    .ok (false, false, true, 0x1234, 0xfa, 0x00, 0x36, 0x30) := by
  rw [brk_exec]
  rfl

/-- Claim C9: packing the status register to a byte in `NVUBDIZC` order
(`get_status_byte`) and then unpacking that byte (`set_from_byte`)
restores exactly the same eight flag values: `unpack(pack(P)) = P` for
all 256 flag combinations. -/
theorem status_byte_round_trip (s : Status) :
    Status.setFromByte s s.getStatusByte = s := by
  rcases s with ⟨n, v, i, b, d, it, z, c⟩
  cases n <;> cases v <;> cases i <;> cases b <;> cases d <;> cases it <;>
    cases z <;> cases c <;> rfl

/-- Claim C4 counterexample: a bus write inside the cartridge ROM window
is fatal — at address `0x8000` it returns `Err("Writing to cartridge
ROM")` to the caller instead of being forwarded to the mapper. -/
theorem rom_write_error_counterexample :
    sampleBus.memWrite 0x8000 0x42 =
      .error (.nesError "Writing to cartridge ROM") := rfl

/-- Claim C4 (amended): for every address in the bus's cartridge ROM
window `0x8000..=0xFFFF` and every data byte, a bus write returns the
error `"Writing to cartridge ROM"` to the caller; it is never forwarded
to the cartridge mapper (`Cartridge::cpu_write` is never invoked and
the bus state cannot change). -/
theorem rom_write_rejected (bus : CpuBus) (addr data : Nat)
    (h1 : 0x8000 ≤ addr) (h2 : addr ≤ 0xffff) :
    bus.memWrite addr data = .error (.nesError "Writing to cartridge ROM") := by
  unfold CpuBus.memWrite
  rw [if_neg (by omega), if_neg (by omega), if_pos ⟨h1, h2⟩]

/-- Witness for `rom_write_rejected` at `addr = 0x9000`, `data = 0x7f`. -/
theorem rom_write_rejected_witness :
    sampleBus.memWrite 0x9000 0x7f =
      .error (.nesError "Writing to cartridge ROM") :=
  rom_write_rejected sampleBus 0x9000 0x7f (by decide) (by decide)

/-- Claim C6 (code bug): the post-instruction advance
`PC += length_bytes` does wrap modulo `2^16` (from `0xFFFF`, advancing
by 2 yields `0x0001`), but the operand base `PC + 1` of
`get_operand_address` and the `PC + 2` pushed by `BRK` are plain `u16`
additions: with `PC = 0xFFFF` resolving an Immediate operand, and with
`PC = 0xFFFE` executing `BRK`, the addition overflows (a panic under
debug assertions) instead of wrapping. -/
theorem pc_plain_add_overflow :
    cpuFF.getOperandAddress .immediate = .error .overflow ∧
    cpuFE.runOpcode ⟨.BRK, 1, 7, .implied⟩ = .error .overflow ∧
    (cpuFF.applyBytesToProgramCounter 2).program_counter = 0x0001 :=
  ⟨rfl, rfl, rfl⟩

/-- Claim C5 counterexample: with the byte `0x02` (which does not
decode) at `PC`, the driver loop returns the decode error after zero
observer invocations — a tracer observer would *not* already have
emitted a line for the instruction that failed to decode, contradicting
the claim that the observer runs before the opcode byte is read and
decoded. -/
theorem observer_skipped_on_decode_failure :
    CPU.runWithCallbackCnt id 1 cpuBadOp 0 =
      (.error (.nesError "Unknown opcode"), 0) := rfl

/-- Claim C2 (code bug): the effective stack address `0x0100 | SP` is
always inside `0x0100..=0x01FF`, but the stack pointer arithmetic does
not wrap within the page: a push with `SP = 0x00` fails with an
integer-overflow panic after its memory write (instead of leaving
`SP = 0xFF`), and a pull with `SP = 0xFF` fails with an
integer-overflow panic before its memory read (instead of leaving
`SP = 0x00`). -/
theorem stack_pointer_no_wrap :
    (∀ cpu : CPU, cpu.stack_pointer < 256 →
       0x0100 ≤ cpu.getStackAddress ∧ cpu.getStackAddress ≤ 0x01ff) ∧
    (∀ (cpu : CPU) (data : Nat) (bus2 : CpuBus), cpu.stack_pointer = 0x00 →
       cpu.bus.memWrite 0x0100 data = .ok bus2 →
       cpu.pushToStack data = .error .overflow) ∧
    (∀ cpu : CPU, cpu.stack_pointer = 0xff →
       cpu.pullFromStack = .error .overflow) := by
  refine ⟨fun cpu h => ?_, fun cpu data bus2 hsp hw => ?_, fun cpu hsp => ?_⟩
  · unfold CPU.getStackAddress
    omega
  · simp only [CPU.pushToStack, CPU.getStackAddress, hsp, Nat.reduceMul,
      Nat.reduceAdd, Nat.zero_add]
    rw [hw]
    simp +decide only [except_bind_ok, checkedSub8, reduceIte,
      except_bind_err]
  · simp +decide only [CPU.pullFromStack, checkedAdd8, hsp, Nat.reduceAdd,
      reduceIte, except_bind_err]

/-- Witness for `stack_pointer_no_wrap`: the post-reset machine's stack
address is in the page; a push at `SP = 0x00` and a pull at `SP = 0xFF`
both fail with the overflow panic. -/
theorem stack_pointer_no_wrap_witness :
    (0x0100 ≤ cpuSPFD.getStackAddress ∧ cpuSPFD.getStackAddress ≤ 0x01ff) ∧
    cpuSP0.pushToStack 0x42 = .error .overflow ∧
    cpuSPFF.pullFromStack = .error .overflow :=
  ⟨stack_pointer_no_wrap.1 cpuSPFD (by decide),
   stack_pointer_no_wrap.2.1 cpuSP0 0x42
     ⟨⟨(List.replicate 0x200 0).set 0x100 0x42⟩, sampleCartridge⟩ rfl rfl,
   stack_pointer_no_wrap.2.2 cpuSPFF rfl⟩

/-- Claim C10: when the byte fetched at `PC` decodes to `BRK`, the
driver loop returns `Ok` with the machine exactly as it was before the
fetch — the callback is not invoked (the invocation counter is
unchanged) and the `BRK` execution arm never runs: no push, no flag
change, no vector load. -/
theorem driver_halts_on_brk (f : CPU → CPU) (fuel n : Nat) (cpu : CPU)
    (code : Nat) (d : OpCodeDetail)
    (hfetch : cpu.bus.memRead cpu.program_counter = .ok code)
    (hdec : decodeOpcode code = .ok d)
    (hbrk : d.instruction = .BRK) :
    CPU.runWithCallbackCnt f (fuel + 1) cpu n = (.ok cpu, n) := by
  simp only [CPU.runWithCallbackCnt, hfetch, hdec, hbrk, reduceIte]

/-- Witness for `driver_halts_on_brk`: fresh machine, RAM all zero, so
the fetched byte `0x00` decodes to `BRK`; one driver step returns the
machine unchanged with zero callback invocations. -/
theorem driver_halts_on_brk_witness :
    CPU.runWithCallbackCnt id 1 cpuBrkFetch 0 = (.ok cpuBrkFetch, 0) :=
  driver_halts_on_brk id 0 0 cpuBrkFetch 0x00 ⟨.BRK, 1, 7, .implied⟩
    rfl rfl rfl

/-- Claim C5 (amended): during `run_with_callback` the observer is
invoked only after the opcode byte has been read, successfully decoded,
and found not to be `BRK`, immediately before execution; an instruction
byte that fails to decode terminates the loop with the decode error
before the observer is invoked for it, so a tracer will not have
emitted a line for that instruction. -/
theorem observer_invoked_after_fetch_and_decode (f : CPU → CPU)
    (fuel n : Nat) (cpu : CPU) (code : Nat)
    (hfetch : cpu.bus.memRead cpu.program_counter = .ok code) :
    (∀ e : RtErr, decodeOpcode code = .error e →
       CPU.runWithCallbackCnt f (fuel + 1) cpu n = (.error e, n)) ∧
    (∀ d : OpCodeDetail, decodeOpcode code = .ok d →
       d.instruction ≠ .BRK →
       CPU.runWithCallbackCnt f (fuel + 1) cpu n =
         match (f cpu).runOpcode d with
         | .error e => (.error e, n + 1)
         | .ok cpu2 => CPU.runWithCallbackCnt f fuel cpu2 (n + 1)) := by
  constructor
  · intro e hdec
    simp only [CPU.runWithCallbackCnt, hfetch, hdec]
  · intro d hdec hne
    simp only [CPU.runWithCallbackCnt, hfetch, hdec, if_neg hne]

/-- Witness for `observer_invoked_after_fetch_and_decode` at the
machine whose fetched byte `0x02` does not decode. -/
theorem observer_invoked_after_fetch_and_decode_witness :
    CPU.runWithCallbackCnt id 3 cpuBadOp 0 =
      (.error (.nesError "Unknown opcode"), 0) :=
  (observer_invoked_after_fetch_and_decode id 2 0 cpuBadOp 0x02 rfl).1
    (.nesError "Unknown opcode") rfl

/-- Claim C1: for every accumulator value `A < 256`, operand byte
`M < 256` and incoming carry `C`, `addition_with_register_a` (the body
of ADC) sets `A` to `(A + M + C) % 256`, the carry flag iff
`A + M + C > 0xFF`, the zero flag iff the low byte of the sum is zero,
the negative flag to bit 7 of the low byte, and the overflow flag iff
`(A ^ r) & (M ^ r) & 0x80 ≠ 0` where `r` is the low byte; every other
register and flag — the decimal flag in particular — is untouched, and
none of the results depends on the decimal flag. -/
theorem adc_binary_semantics (cpu : CPU) (m : Nat)
    (ha : cpu.register_a < 256) (hm : m < 256) :
    cpu.additionWithRegisterA m = .ok { cpu with
      register_a := (cpu.register_a + m + cpu.status.carry.toNat) % 256,
      status := { cpu.status with
        carry := decide (0xff < cpu.register_a + m + cpu.status.carry.toNat),
        zero := decide
          ((cpu.register_a + m + cpu.status.carry.toNat) % 256 = 0),
        negative := decide
          ((cpu.register_a + m + cpu.status.carry.toNat) % 256 &&& 0x80 ≠ 0),
        overflow := decide
          ((cpu.register_a ^^^
              (cpu.register_a + m + cpu.status.carry.toNat) % 256) &&&
            (m ^^^ (cpu.register_a + m + cpu.status.carry.toNat) % 256) &&&
            0x80 ≠ 0) } } := by
  obtain ⟨a, x, y, st, pc, sp, bus⟩ := cpu
  obtain ⟨n, v, i, b, d, it, z, c⟩ := st
  simp only at ha ⊢
  have hc : c.toNat ≤ 1 := by cases c <;> simp
  have h1 : checkedAdd16 a m = .ok (a + m) := by
    unfold checkedAdd16; rw [if_pos (by omega)]
  have h2 : checkedAdd16 (a + m) c.toNat = .ok (a + m + c.toNat) := by
    unfold checkedAdd16; rw [if_pos (by omega)]
  simp only [CPU.additionWithRegisterA, Status.readFlag, h1, except_bind_ok,
    h2, except_pure_eq, Status.setZeroFlag, Status.setNegativeFlag,
    Status.setFlag, Except.ok.injEq, CPU.mk.injEq, Status.mk.injEq]
  refine ⟨trivial, trivial, trivial, ⟨trivial, ?_, trivial, trivial, trivial,
    trivial, trivial, ?_⟩, trivial, trivial, trivial⟩
  · rw [Nat.mod_eq_of_lt hm]
    exact decide_eq_decide.mpr (by omega)
  · exact decide_eq_decide.mpr (by omega)


/-- Witness for `adc_binary_semantics`: scenario S3 — `A = 0x8A`,
`M = 0x81`, `C = 0` gives `A = 0x0B`, `C = 1`, `V = 1`, `Z = 0`,
`N = 0`. -/
theorem adc_binary_semantics_s3 :
    cpuS3.additionWithRegisterA 0x81 = .ok { cpuS3 with
      register_a := 0x0b,
      status := { cpuS3.status with
        carry := true, zero := false, negative := false,
        overflow := true } } := by
  have h := adc_binary_semantics cpuS3 0x81 (by decide) (by decide)
  rw [h]
  rfl

/-- Claim C7: SBC is ADC of the bitwise complement — for every machine
state (same accumulator and carry flag), operand byte `M < 256` and
instruction length, the SBC execution arm produces exactly the same
machine state (accumulator and all flags, bit for bit, and the same PC
advance) as the ADC execution arm applied to `M ^^^ 0xFF`. -/
theorem sbc_is_adc_of_complement (cpu : CPU) (value bytes : Nat)
    (h : value < 256) :
    cpu.sbcWithOperand value bytes = cpu.adcWithOperand (value ^^^ 0xff) bytes := by
  have hx : ∀ v < 256, notU8 v = v ^^^ 0xff := by decide
  unfold CPU.sbcWithOperand
  rw [hx value h]

/-- Witness for `sbc_is_adc_of_complement` at `M = 0x23`,
`bytes = 2`. -/
theorem sbc_is_adc_of_complement_witness :
    cpuS3.sbcWithOperand 0x23 2 = cpuS3.adcWithOperand (0x23 ^^^ 0xff) 2 :=
  sbc_is_adc_of_complement cpuS3 0x23 2 (by decide)

/-- Claim C8: RAM mirroring — for every bus whose internal RAM has the
constructed size 2048 and every address `a ≤ 0x1FFF`, a bus read of `a`
returns the same result as a bus read of `a &&& 0x07FF`, and the read
does not fail. -/
theorem ram_read_mirroring (bus : CpuBus) (a : Nat)
    (ha : a ≤ 0x1fff) (hlen : bus.cpu_ram.storage.length = 2048) :
    bus.memRead a = bus.memRead (a &&& 0x7ff) ∧
    ∃ v, bus.memRead a = .ok v := by
  have hmask : ∀ x : Nat, x &&& 0x7ff = x % 2048 := by
    intro x
    have h := Nat.and_pow_two_sub_one_eq_mod x 11
    norm_num at h
    exact h
  have hlt : a % 2048 < 2048 := Nat.mod_lt _ (by omega)
  have hb : (a &&& 0x7ff) ≤ 0x1fff := by rw [hmask]; omega
  have hidem : (a &&& 0x7ff) &&& 0x7ff = a &&& 0x7ff := by
    rw [hmask, hmask]
    omega
  constructor
  · unfold CpuBus.memRead
    rw [if_pos ha, if_pos hb, hidem]
  · unfold CpuBus.memRead
    rw [if_pos ha]
    unfold RAM.memRead
    rw [hmask, List.getElem?_eq_getElem (by omega)]
    exact ⟨_, rfl⟩

/-- Witness for `ram_read_mirroring` on the freshly constructed bus at
`a = 0x1803` (mirrors to `0x0003`). -/
theorem ram_read_mirroring_witness :
    sampleBus.memRead 0x1803 = sampleBus.memRead (0x1803 &&& 0x7ff) ∧
    ∃ v, sampleBus.memRead 0x1803 = .ok v :=
  ram_read_mirroring sampleBus 0x1803 (by decide)
    (by simp [sampleBus, CpuBus.new, RAM.new, List.length_replicate])
